import Mathlib

/-!
Verification of the VistaraBI AI-service route handlers against their
specification.

The Python service (src/ai) exposes FastAPI route handlers.  Every handler
in the repository is a stub that ignores its request and returns a fixed
payload, so each handler embeds as a (constant) total Lean function on the
request type.  Python floats appearing in the fixed payloads are exact
decimal literals, so we embed numeric fields as rationals.  The error
classes named by the specification (UnmappableGoalError,
CyclicDependencyError, InvalidGoalParametersError,
InvalidTimelineWindowError) have no counterpart in the code; we embed the
goal-route handlers as `Except GoalError _` so that "raises E" is statable
as "returns `Except.error E`" — the stubs always return `Except.ok`.
-/

namespace VistaraBI

/-- Request body of `POST /api/ai/kpis/extract` (`KPIRequest` in
`src/ai/routes/kpis.py`).  `data_sample : Dict[str, Any]` is embedded as an
association list with an arbitrary value type `α`. -/
structure KPIRequest (α : Type) where
  domain : String
  columns : List String
  data_sample : List (String × α)
deriving DecidableEq

/-- One KPI entry of the response (`KPI` model in `src/ai/routes/kpis.py`). -/
structure KPI where
  name : String
  description : String
  formula : String
  category : String
  priority : Int
deriving DecidableEq

/-- Response body of `POST /api/ai/kpis/extract` (`KPIResponse` model). -/
structure KPIResponse where
  kpis : List KPI
  recommendations : List String
deriving DecidableEq

/-- First fixed KPI of the stub payload in `extract_kpis`. -/
def revenueGrowthRate : KPI :=
  { name := "Revenue Growth Rate"
    description := "Year-over-year revenue growth percentage"
    formula := "((current_revenue - previous_revenue) / previous_revenue) * 100"
    category := "Financial"
    priority := 1 }

/-- Second fixed KPI of the stub payload in `extract_kpis`. -/
def customerAcquisitionCost : KPI :=
  { name := "Customer Acquisition Cost"
    description := "Average cost to acquire a new customer"
    formula := "total_marketing_spend / new_customers"
    category := "Marketing"
    priority := 2 }

/-- The fixed payload returned by `extract_kpis` in `src/ai/routes/kpis.py`. -/
def extractKpisFixedResponse : KPIResponse :=
  { kpis := [revenueGrowthRate, customerAcquisitionCost]
    recommendations :=
      ["Add customer_id column to track customer metrics",
       "Include date column for time-based analysis"] }

/-- Handler `extract_kpis` of `src/ai/routes/kpis.py` (lines 23-53): the
placeholder implementation returns the fixed payload for every request. -/
def extract_kpis {α : Type} (_request : KPIRequest α) : KPIResponse :=
  extractKpisFixedResponse

/-- Response body of `GET /api/ai/kpis/library/\x7bdomain\x7d`. -/
structure KPILibraryResponse where
  domain : String
  kpis : List KPI
deriving DecidableEq

/-- Handler `get_kpi_library` of `src/ai/routes/kpis.py` (lines 55-61):
echoes the requested domain with an empty KPI list. -/
def get_kpi_library (domain : String) : KPILibraryResponse :=
  { domain := domain, kpis := [] }

/-- Request body of the goal routes (`GoalRequest` in
`src/ai/routes/goals.py`).  The Python floats are embedded as rationals. -/
structure GoalRequest where
  goal_text : String
  target_value : ℚ
  current_value : ℚ
  deadline : String
  available_kpis : List String
deriving DecidableEq

/-- One action of the goal-mapping response (`Action` model). -/
structure Action where
  title : String
  description : String
  priority : String
  impact : String
  effort : String
deriving DecidableEq

/-- One weekly bucket of the stub timeline (the dict literals of the
`timeline` field in `map_goal_to_kpis`). -/
structure WeekBucket where
  week : Nat
  actions : List String
  expected_impact : ℚ
deriving DecidableEq

/-- Response body of `POST /api/ai/goals/map` (`GoalResponse` model).
`dependencies : Dict[str, List[str]]` is embedded as an association list. -/
structure GoalResponse where
  mapped_kpis : List String
  actions : List Action
  dependencies : List (String × List String)
  timeline : List WeekBucket
deriving DecidableEq

/-- The error taxonomy named by the specification (§7).  None of these is
raised anywhere in the code; the type exists so theorems can state that. -/
inductive GoalError where
  | unmappableGoal : GoalError
  | cyclicDependency : List String → GoalError
  | invalidGoalParameters : GoalError
  | invalidTimelineWindow : GoalError
deriving DecidableEq

/-- The fixed payload returned by `map_goal_to_kpis` in
`src/ai/routes/goals.py` (lines 40-68), transcribed field by field.
`0.15` is the exact decimal `3/20`. -/
def mapGoalFixedResponse : GoalResponse :=
  { mapped_kpis := ["Revenue Growth Rate", "Customer Acquisition Cost"]
    actions :=
      [{ title := "Optimize Marketing Campaigns"
         description := "Focus on high-performing channels to reduce CAC"
         priority := "high", impact := "high", effort := "medium" },
       { title := "Improve Conversion Rate"
         description := "A/B test landing pages to increase conversions"
         priority := "medium", impact := "medium", effort := "low" }]
    dependencies :=
      [("Revenue Growth Rate",
        ["Customer Acquisition Cost", "Average Order Value"])]
    timeline :=
      [{ week := 1
         actions := ["Optimize Marketing Campaigns"]
         expected_impact := 3/20 }] }

/-- Handler `map_goal_to_kpis` of `src/ai/routes/goals.py` (lines 28-68):
the placeholder implementation returns the fixed payload for every request
and raises no error. -/
def map_goal_to_kpis (_request : GoalRequest) : Except GoalError GoalResponse :=
  .ok mapGoalFixedResponse

/-- Response body of `POST /api/ai/goals/estimate` (the dict literal in
`estimate_goal_feasibility`).  `0.75` is the exact decimal `3/4`. -/
structure EstimateResponse where
  feasible : Bool
  confidence : ℚ
  reasoning : String
  recommendations : List String
deriving DecidableEq

/-- The fixed payload returned by `estimate_goal_feasibility`. -/
def estimateFixedResponse : EstimateResponse :=
  { feasible := true
    confidence := 3/4
    reasoning := "Based on current trends, this goal is achievable"
    recommendations := [] }

/-- Handler `estimate_goal_feasibility` of `src/ai/routes/goals.py`
(lines 70-78): returns the fixed payload for every request, raises no
error, and performs no arithmetic (in particular no division). -/
def estimate_goal_feasibility (_request : GoalRequest) :
    Except GoalError EstimateResponse :=
  .ok estimateFixedResponse

/-! ### Spec-side definitions

The specification (§4.1-§4.4) describes a ranking and goal-resolution
engine that the code does not contain.  The definitions below follow the
spec's words; they exist to compare the spec's claimed behaviour with the
stub handlers, and to state concrete counterexamples. -/

/-- Spec-side definition (§4.1 step 2): `coverage` is the fraction of a
KPI's required fields present in the supplied columns. -/
def specCoverage (requiredFields : List String) (columns : List String) : ℚ :=
  if requiredFields.length = 0 then 0
  else ((requiredFields.filter fun f => columns.contains f).length : ℚ) /
    (requiredFields.length : ℚ)

/-- Spec-side definition (§4.1 step 3):
`relevanceScore = 0.6 * domainAffinity + 0.4 * coverage`. -/
def specRelevanceScore (affinity coverage : ℚ) : ℚ :=
  6 / 10 * affinity + 4 / 10 * coverage

/-- Library fixture for the ranking claims: required fields of the two stub
KPIs, following the spec's §8 scenario (Revenue Growth Rate needs
`revenue`; Customer Acquisition Cost needs `marketing_spend` and
`new_customers`). -/
def fixtureRequiredFields (name : String) : List String :=
  if name = "Revenue Growth Rate" then ["revenue"]
  else if name = "Customer Acquisition Cost" then
    ["marketing_spend", "new_customers"]
  else []

/-- Domain-affinity fixture for a domain in which Customer Acquisition Cost
(affinity 0.9) outweighs Revenue Growth Rate (affinity 0.1). -/
def fixtureAffinity (name : String) : ℚ :=
  if name = "Revenue Growth Rate" then 1 / 10
  else if name = "Customer Acquisition Cost" then 9 / 10
  else 0

/-- Relevance score of a KPI under the fixture library, per the spec's
formula, for a given column set. -/
def fixtureScore (columns : List String) (k : KPI) : ℚ :=
  specRelevanceScore (fixtureAffinity k.name)
    (specCoverage (fixtureRequiredFields k.name) columns)

/-- Spec-side definition (§4.2): number of lexicon keywords among the goal
text's tokens. -/
def specKeywordMatches (lexicon : List String) (tokens : List String) : Nat :=
  (lexicon.filter fun k => tokens.contains k).length

/-- Keyword lexicon fixture from the spec's §4.2 examples. -/
def fixtureLexicon : List String := ["revenue", "growth", "cost", "acquisition"]

/-- Direct successors of node `a` in a dependency table. -/
def depNeighbors (deps : List (String × List String)) (a : String) :
    List String :=
  (deps.filter fun p => p.fst = a).flatMap Prod.snd

/-- All node names mentioned by a dependency table. -/
def depNodes (deps : List (String × List String)) : List String :=
  deps.map Prod.fst ++ deps.flatMap Prod.snd

/-- `reachableWithin deps n a b` holds when `b` is reachable from `a` along
at least one and at most `n` edges of the dependency table. -/
def reachableWithin (deps : List (String × List String)) :
    Nat → String → String → Bool
  | 0, _, _ => false
  | n + 1, a, b =>
    (depNeighbors deps a).any fun c => c = b || reachableWithin deps n c b

/-- A dependency table has a cycle iff some mentioned node reaches itself
(paths longer than the node count cannot add new cycles). -/
def hasCycle (deps : List (String × List String)) : Bool :=
  (depNodes deps).any fun a => reachableWithin deps (depNodes deps).length a a

/-- Whether a goal-route result is a `CyclicDependencyError`. -/
def isCyclicDependencyError {γ : Type} : Except GoalError γ → Bool
  | .error (.cyclicDependency _) => true
  | _ => false

/-- All dependency names appearing among the values of a dependencies
mapping. -/
def depValues (deps : List (String × List String)) : List String :=
  deps.flatMap Prod.snd

/-- Sum of the weekly `expected_impact` values of a timeline. -/
def timelineImpactSum (timeline : List WeekBucket) : ℚ :=
  (timeline.map fun w => w.expected_impact).sum

/-! ### Concrete request fixtures used by the claim theorems -/

/-- Request whose column set covers Customer Acquisition Cost fully and
Revenue Growth Rate not at all (coverage 1 and 0 under the fixture). -/
def c2Request : KPIRequest Unit :=
  { domain := "adtech"
    columns := ["marketing_spend", "new_customers"]
    data_sample := [] }

/-- The spec's §8 unmappable-goal scenario: goal text with no lexicon hit. -/
def c3Request : GoalRequest :=
  { goal_text := "improve efficiency"
    target_value := 100
    current_value := 50
    deadline := "2026-12-31"
    available_kpis := ["Revenue Growth Rate", "Customer Acquisition Cost"] }

/-- The space-separated tokens of the goal text "improve efficiency". -/
def c3GoalTokens : List String := ["improve", "efficiency"]

/-- Request with a non-positive `current_value` (invalid for growth-rate
math per the spec's §4.3). -/
def c4Request : GoalRequest :=
  { goal_text := "double revenue"
    target_value := 200
    current_value := 0
    deadline := "2026-12-31"
    available_kpis := [] }

/-- The spec's deliberately cyclic dependsOn fixture (§8): KPI A depends on
B and B depends on A, instantiated with the two stub KPI names. -/
def c5CyclicDeps : List (String × List String) :=
  [("Revenue Growth Rate", ["Customer Acquisition Cost"]),
   ("Customer Acquisition Cost", ["Revenue Growth Rate"])]

/-- Request whose mapped-KPI set (always the fixed pair) is exactly the
node set of the cyclic fixture. -/
def c5Request : GoalRequest :=
  { goal_text := "increase revenue growth"
    target_value := 2
    current_value := 1
    deadline := "2026-12-31"
    available_kpis := ["Revenue Growth Rate", "Customer Acquisition Cost"] }

/-- Request with an empty `available_kpis` set. -/
def c6Request : GoalRequest :=
  { goal_text := "grow revenue"
    target_value := 2
    current_value := 1
    deadline := "2026-06-30"
    available_kpis := [] }

/-- Extraction request with an empty column set. -/
def c7Request : KPIRequest Unit :=
  { domain := "adtech", columns := [], data_sample := [] }

/-- Feasibility request with `currentValue = targetValue = 100`; the
deadline string is a parameter so the theorem covers "deadline = now"
under any serialization. -/
def c8Request (deadline : String) : GoalRequest :=
  { goal_text := "hold revenue steady"
    target_value := 100
    current_value := 100
    deadline := deadline
    available_kpis := [] }

/-- A goal-mapping request (its fixed response has a non-empty action
plan). -/
def c9Request : GoalRequest :=
  { goal_text := "increase revenue growth"
    target_value := 150
    current_value := 100
    deadline := "2026-12-31"
    available_kpis := ["Revenue Growth Rate"] }

/-! ### Helper lemmas evaluating the fixture library -/

lemma fixtureAffinity_rgr : fixtureAffinity "Revenue Growth Rate" = 1 / 10 := by
  unfold fixtureAffinity
  rw [if_pos rfl]

lemma fixtureAffinity_cac :
    fixtureAffinity "Customer Acquisition Cost" = 9 / 10 := by
  unfold fixtureAffinity
  rw [if_neg (by decide), if_pos rfl]

lemma fixtureRequiredFields_rgr :
    fixtureRequiredFields "Revenue Growth Rate" = ["revenue"] := by
  unfold fixtureRequiredFields
  rw [if_pos rfl]

lemma fixtureRequiredFields_cac :
    fixtureRequiredFields "Customer Acquisition Cost" =
      ["marketing_spend", "new_customers"] := by
  unfold fixtureRequiredFields
  rw [if_neg (by decide), if_pos rfl]

lemma specCoverage_of_ne_nil (rf cols : List String) (h : ¬ rf.length = 0) :
    specCoverage rf cols =
      ((rf.filter fun f => cols.contains f).length : ℚ) / (rf.length : ℚ) := by
  unfold specCoverage
  rw [if_neg h]

lemma coverage_cac_c2 :
    specCoverage ["marketing_spend", "new_customers"]
      ["marketing_spend", "new_customers"] = 1 := by
  rw [specCoverage_of_ne_nil _ _ (by decide)]
  rw [show ((["marketing_spend", "new_customers"] : List String).filter fun f =>
      (["marketing_spend", "new_customers"] : List String).contains f) =
      ["marketing_spend", "new_customers"] from by decide]
  norm_num

lemma coverage_rgr_c2 :
    specCoverage ["revenue"] ["marketing_spend", "new_customers"] = 0 := by
  rw [specCoverage_of_ne_nil _ _ (by decide)]
  rw [show ((["revenue"] : List String).filter fun f =>
      (["marketing_spend", "new_customers"] : List String).contains f) =
      ([] : List String) from by decide]
  norm_num

lemma score_cac_c2 :
    fixtureScore c2Request.columns customerAcquisitionCost = 47 / 50 := by
  show fixtureScore ["marketing_spend", "new_customers"]
    customerAcquisitionCost = 47 / 50
  unfold fixtureScore specRelevanceScore
  rw [show customerAcquisitionCost.name = "Customer Acquisition Cost" from rfl,
    fixtureAffinity_cac, fixtureRequiredFields_cac, coverage_cac_c2]
  norm_num

lemma score_rgr_c2 :
    fixtureScore c2Request.columns revenueGrowthRate = 3 / 50 := by
  show fixtureScore ["marketing_spend", "new_customers"] revenueGrowthRate = 3 / 50
  unfold fixtureScore specRelevanceScore
  rw [show revenueGrowthRate.name = "Revenue Growth Rate" from rfl,
    fixtureAffinity_rgr, fixtureRequiredFields_rgr, coverage_rgr_c2]
  norm_num

/-! ### Claim theorems -/

/-- C1: any two calls to `extract_kpis` — with identical input or not —
return the same KPI list with the same contents in the same order; the
output is independent of the request, as the handler is a stub returning a
fixed payload. -/
theorem C1_extract_kpis_deterministic {α β : Type}
    (r₁ : KPIRequest α) (r₂ : KPIRequest β) :
    (extract_kpis r₁).kpis = (extract_kpis r₂).kpis ∧
    extract_kpis r₁ = extract_kpis r₂ :=
  ⟨rfl, rfl⟩

/-- A first concrete extraction request, for the C1 witness. -/
def c1RequestA : KPIRequest Unit :=
  { domain := "retail", columns := ["revenue"], data_sample := [] }

/-- A second concrete extraction request, for the C1 witness. -/
def c1RequestB : KPIRequest Nat :=
  { domain := "finance", columns := [], data_sample := [("rows", 3)] }

/-- Instance of `C1_extract_kpis_deterministic` at two concrete requests. -/
theorem C1_extract_kpis_deterministic_witness :
    (extract_kpis c1RequestA).kpis = (extract_kpis c1RequestB).kpis :=
  (C1_extract_kpis_deterministic c1RequestA c1RequestB).1

/-- C2 is false on the code: under a library fixture in which Customer
Acquisition Cost has relevanceScore 0.94 (affinity 0.9, coverage 1) and
Revenue Growth Rate has 0.06 (affinity 0.1, coverage 0), the returned list
still puts Revenue Growth Rate first, so it is not sorted in descending
order of relevanceScore. -/
theorem C2_counterexample :
    ((extract_kpis c2Request).kpis.map fun k => k.name) =
      ["Revenue Growth Rate", "Customer Acquisition Cost"] ∧
    fixtureScore c2Request.columns customerAcquisitionCost >
      fixtureScore c2Request.columns revenueGrowthRate ∧
    ¬ List.Sorted (fun a b : ℚ => b ≤ a)
      ((extract_kpis c2Request).kpis.map (fixtureScore c2Request.columns)) := by
  have hCAC := score_cac_c2
  have hRGR := score_rgr_c2
  have hmap : (extract_kpis c2Request).kpis.map (fixtureScore c2Request.columns) =
      [fixtureScore c2Request.columns revenueGrowthRate,
       fixtureScore c2Request.columns customerAcquisitionCost] := rfl
  refine ⟨rfl, by rw [hCAC, hRGR]; norm_num, ?_⟩
  rw [hmap, hCAC, hRGR]
  intro h
  have h2 := List.rel_of_sorted_cons h ((47 : ℚ) / 50) (by simp)
  norm_num at h2

/-- C2 (amended): `extract_kpis` returns a fixed two-entry KPI list
(Revenue Growth Rate, then Customer Acquisition Cost) independent of
domain, columns, data sample, and any KPI library; the list is ordered by
the response's `priority` field ascending, not by any computed
relevanceScore. -/
theorem C2_fixed_output_priority_order {α : Type} (r : KPIRequest α) :
    (extract_kpis r).kpis = [revenueGrowthRate, customerAcquisitionCost] ∧
    List.Sorted (fun a b : KPI => a.priority ≤ b.priority)
      (extract_kpis r).kpis := by
  refine ⟨rfl, ?_⟩
  show List.Sorted (fun a b : KPI => a.priority ≤ b.priority)
    [revenueGrowthRate, customerAcquisitionCost]
  refine List.sorted_cons.mpr ⟨?_, List.sorted_singleton _⟩
  intro b hb
  rw [List.mem_singleton.mp hb]
  decide

/-- Instance of `C2_fixed_output_priority_order` at a concrete request. -/
theorem C2_fixed_output_priority_order_witness :
    (extract_kpis c2Request).kpis =
      [revenueGrowthRate, customerAcquisitionCost] :=
  (C2_fixed_output_priority_order c2Request).1

/-- C3 is false on the code: the goal text "improve efficiency" matches
zero keywords of the lexicon, yet `map_goal_to_kpis` does not raise
`UnmappableGoalError` — it returns the fixed, non-empty mapping. -/
theorem C3_counterexample :
    c3Request.goal_text = "improve efficiency" ∧
    specKeywordMatches fixtureLexicon c3GoalTokens = 0 ∧
    map_goal_to_kpis c3Request = Except.ok mapGoalFixedResponse ∧
    mapGoalFixedResponse.mapped_kpis ≠ [] := by
  refine ⟨rfl, by decide, rfl, by decide⟩

/-- C3 (amended): `map_goal_to_kpis` never raises `UnmappableGoalError`;
for every request — zero lexicon matches included — it returns the fixed
non-empty mapping [Revenue Growth Rate, Customer Acquisition Cost]. -/
theorem C3_never_unmappable (r : GoalRequest) :
    map_goal_to_kpis r = Except.ok mapGoalFixedResponse ∧
    map_goal_to_kpis r ≠ Except.error GoalError.unmappableGoal ∧
    mapGoalFixedResponse.mapped_kpis ≠ [] :=
  ⟨rfl, fun h => Except.noConfusion h, by decide⟩

/-- Instance of `C3_never_unmappable` at the unmappable-goal request. -/
theorem C3_never_unmappable_witness :
    map_goal_to_kpis c3Request = Except.ok mapGoalFixedResponse :=
  (C3_never_unmappable c3Request).1

/-- C4 is false on the code: at a request with `current_value = 0` the
handler does not fail with `InvalidGoalParametersError`; it returns the
fixed feasibility payload. -/
theorem C4_counterexample :
    c4Request.current_value ≤ 0 ∧
    estimate_goal_feasibility c4Request = Except.ok estimateFixedResponse ∧
    estimate_goal_feasibility c4Request ≠
      Except.error GoalError.invalidGoalParameters := by
  refine ⟨by norm_num [c4Request], rfl, fun h => Except.noConfusion h⟩

/-- C4 (amended): `estimate_goal_feasibility` never fails; for every
request, non-positive `current_value`/`target_value` included, it returns
the fixed payload (feasible = true, confidence = 0.75) and never raises
`InvalidGoalParametersError`. -/
theorem C4_never_invalid_parameters (r : GoalRequest) :
    estimate_goal_feasibility r = Except.ok estimateFixedResponse ∧
    estimate_goal_feasibility r ≠
      Except.error GoalError.invalidGoalParameters :=
  ⟨rfl, fun h => Except.noConfusion h⟩

/-- Instance of `C4_never_invalid_parameters` at the non-positive request. -/
theorem C4_never_invalid_parameters_witness :
    estimate_goal_feasibility c4Request = Except.ok estimateFixedResponse :=
  (C4_never_invalid_parameters c4Request).1

/-- C5 is false on the code: the spec's cyclic fixture (A depends on B, B
depends on A over the two mapped KPI names) is indeed cyclic, yet the
handler raises no `CyclicDependencyError` for the request mapping exactly
those KPIs — it returns the fixed payload; no cycle check exists. -/
theorem C5_counterexample :
    hasCycle c5CyclicDeps = true ∧
    "Revenue Growth Rate" ∈ mapGoalFixedResponse.mapped_kpis ∧
    "Customer Acquisition Cost" ∈ mapGoalFixedResponse.mapped_kpis ∧
    map_goal_to_kpis c5Request = Except.ok mapGoalFixedResponse ∧
    isCyclicDependencyError (map_goal_to_kpis c5Request) = false := by
  refine ⟨by decide, by decide, by decide, rfl, rfl⟩

/-- C5 (amended): dependency-graph construction is a stub: for every
request it terminates, returns the fixed dependencies mapping — which is
acyclic — and never raises `CyclicDependencyError`, whatever the dependsOn
relations of the mapped KPIs are. -/
theorem C5_stub_graph_acyclic_no_error (r : GoalRequest) :
    map_goal_to_kpis r = Except.ok mapGoalFixedResponse ∧
    isCyclicDependencyError (map_goal_to_kpis r) = false ∧
    hasCycle mapGoalFixedResponse.dependencies = false :=
  ⟨rfl, rfl, by decide⟩

/-- Instance of `C5_stub_graph_acyclic_no_error` at the cyclic-fixture
request. -/
theorem C5_stub_graph_acyclic_no_error_witness :
    map_goal_to_kpis c5Request = Except.ok mapGoalFixedResponse :=
  (C5_stub_graph_acyclic_no_error c5Request).1

/-- C6 is false on the code: for a request with empty `available_kpis`,
"Customer Acquisition Cost" still appears among the returned dependency
names even though it is not in the request's available set. -/
theorem C6_counterexample :
    map_goal_to_kpis c6Request = Except.ok mapGoalFixedResponse ∧
    "Customer Acquisition Cost" ∈ depValues mapGoalFixedResponse.dependencies ∧
    "Customer Acquisition Cost" ∉ c6Request.available_kpis := by
  refine ⟨rfl, by decide, by decide⟩

/-- C6 (amended): the returned dependencies mapping is the fixed
\x7bRevenue Growth Rate ↦ [Customer Acquisition Cost, Average Order
Value]\x7d for every request; dependency names are not filtered against
`available_kpis`. -/
theorem C6_dependencies_unfiltered (r : GoalRequest) :
    map_goal_to_kpis r = Except.ok mapGoalFixedResponse ∧
    mapGoalFixedResponse.dependencies =
      [("Revenue Growth Rate",
        ["Customer Acquisition Cost", "Average Order Value"])] :=
  ⟨rfl, rfl⟩

/-- Instance of `C6_dependencies_unfiltered` at the empty-available-KPIs
request. -/
theorem C6_dependencies_unfiltered_witness :
    map_goal_to_kpis c6Request = Except.ok mapGoalFixedResponse :=
  (C6_dependencies_unfiltered c6Request).1

/-- C7 is false on the code: with an empty column set the handler indeed
never errors, but it returns two KPIs, not a top-3, and under an affinity
fixture favouring Customer Acquisition Cost the list is not ranked by
domainAffinity alone (the response carries no matchedFields at all). -/
theorem C7_counterexample :
    c7Request.columns = [] ∧
    ((extract_kpis c7Request).kpis.map fun k => k.name) =
      ["Revenue Growth Rate", "Customer Acquisition Cost"] ∧
    (extract_kpis c7Request).kpis.length ≠ 3 ∧
    fixtureAffinity customerAcquisitionCost.name >
      fixtureAffinity revenueGrowthRate.name ∧
    ¬ List.Sorted (fun a b : ℚ => b ≤ a)
      ((extract_kpis c7Request).kpis.map fun k => fixtureAffinity k.name) := by
  have hCAC : fixtureAffinity customerAcquisitionCost.name = 9 / 10 := by
    rw [show customerAcquisitionCost.name = "Customer Acquisition Cost" from rfl,
      fixtureAffinity_cac]
  have hRGR : fixtureAffinity revenueGrowthRate.name = 1 / 10 := by
    rw [show revenueGrowthRate.name = "Revenue Growth Rate" from rfl,
      fixtureAffinity_rgr]
  have hmap : ((extract_kpis c7Request).kpis.map fun k => fixtureAffinity k.name) =
      [fixtureAffinity revenueGrowthRate.name,
       fixtureAffinity customerAcquisitionCost.name] := rfl
  refine ⟨rfl, rfl, by decide, by rw [hCAC, hRGR]; norm_num, ?_⟩
  rw [hmap, hCAC, hRGR]
  intro h
  have h2 := List.rel_of_sorted_cons h ((9 : ℚ) / 10) (by simp)
  norm_num at h2

/-- C7 (amended): with an empty column set `extract_kpis` never errors and
returns exactly the same fixed two-KPI payload as every other input
(Revenue Growth Rate then Customer Acquisition Cost, with the fixed
recommendations); no affinity-based reranking happens and the response has
no matchedFields field. -/
theorem C7_empty_columns_stub {α : Type} (domain : String)
    (sample : List (String × α)) :
    extract_kpis { domain := domain, columns := [], data_sample := sample } =
      extractKpisFixedResponse ∧
    (extract_kpis { domain := domain
                    columns := []
                    data_sample := sample }).kpis.length = 2 :=
  ⟨rfl, rfl⟩

/-- Instance of `C7_empty_columns_stub` at a concrete request. -/
theorem C7_empty_columns_stub_witness :
    extract_kpis c7Request = extractKpisFixedResponse :=
  (C7_empty_columns_stub "adtech" ([] : List (String × Unit))).1

/-- C8: feasibility estimation at `currentValue = targetValue = 100` with
any deadline (including one equal to now) returns without error — the stub
performs no arithmetic, hence no division by zero — and yields
`feasible = true`, which here holds exactly when targetValue ≤
currentValue. -/
theorem C8_zero_periods_feasible (deadline : String) :
    estimate_goal_feasibility (c8Request deadline) =
      Except.ok estimateFixedResponse ∧
    (estimateFixedResponse.feasible = true ↔
      (c8Request deadline).target_value ≤ (c8Request deadline).current_value) :=
  ⟨rfl, ⟨fun _ => le_refl (100 : ℚ), fun _ => rfl⟩⟩

/-- Instance of `C8_zero_periods_feasible` at a concrete "now" deadline. -/
theorem C8_zero_periods_feasible_witness :
    estimate_goal_feasibility (c8Request "2025-10-12T00:00:00") =
      Except.ok estimateFixedResponse :=
  (C8_zero_periods_feasible "2025-10-12T00:00:00").1

/-- C9 is false on the code: the action plan of the fixed response is
non-empty, yet the timeline's expectedImpact values sum to 0.15, which
differs from 1.0 by far more than the 1e-6 tolerance. -/
theorem C9_counterexample :
    map_goal_to_kpis c9Request = Except.ok mapGoalFixedResponse ∧
    mapGoalFixedResponse.actions ≠ [] ∧
    timelineImpactSum mapGoalFixedResponse.timeline = 3 / 20 ∧
    ¬ |timelineImpactSum mapGoalFixedResponse.timeline - 1| ≤ 1 / 1000000 := by
  have hsum : timelineImpactSum mapGoalFixedResponse.timeline = 3 / 20 := by
    simp [timelineImpactSum, mapGoalFixedResponse]
  refine ⟨rfl, fun h => List.noConfusion h, hsum, ?_⟩
  rw [hsum]
  intro h
  have habs : |(3 : ℚ) / 20 - 1| = 17 / 20 := by
    rw [abs_of_nonpos] <;> norm_num
  rw [habs] at h
  norm_num at h

/-- C9 (amended): for every request the returned timeline is the single
week-1 bucket with expectedImpact = 0.15; the cumulative sum equals 0.15,
not 1.0 — no normalization happens. -/
theorem C9_timeline_sum_fixed (r : GoalRequest) :
    map_goal_to_kpis r = Except.ok mapGoalFixedResponse ∧
    timelineImpactSum mapGoalFixedResponse.timeline = 3 / 20 :=
  ⟨rfl, by simp [timelineImpactSum, mapGoalFixedResponse]⟩

/-- Instance of `C9_timeline_sum_fixed` at a concrete request. -/
theorem C9_timeline_sum_fixed_witness :
    map_goal_to_kpis c9Request = Except.ok mapGoalFixedResponse :=
  (C9_timeline_sum_fixed c9Request).1

/-- C10: for every domain string, `get_kpi_library` succeeds and returns a
response echoing the requested domain with an empty KPI list. -/
theorem C10_library_echoes_domain_empty (d : String) :
    get_kpi_library d = { domain := d, kpis := [] } :=
  rfl

/-- Instance of `C10_library_echoes_domain_empty` at a concrete domain. -/
theorem C10_library_echoes_domain_empty_witness :
    get_kpi_library "retail" = { domain := "retail", kpis := [] } :=
  C10_library_echoes_domain_empty "retail"

end VistaraBI
